import Mathlib

/-!
Shallow embedding of `src/app.py` (IBM-DB2_Slackbot-triage): an APIFlask REST
facade over a single PATIENTS table, with one static-token authenticator,
marshmallow request/response schemas, and Flask-SQLAlchemy pagination.

Modelling conventions:
* The relational engine is an external collaborator (spec section 1); the table
  is modelled as `DBState`: an ordered list of rows (storage-defined order) plus
  the identity counter for the auto-assigned primary key `eid`.
* Python `str` values are `String`; row attribute values are kept in the surface
  (string) form in which the handlers and the `sample_patients` dicts pass them
  around; the column list of `EventModel` fixes the attribute set.  (The source
  text of the `EventModel` class is missing two closing parentheses on its last
  two column declarations; the evident column set is used here.)
* Fallible handlers return `Except ApiError`; handlers that may write return the
  post-state explicitly.
-/

/-- HTTP-level error signals raised by the handlers and their framework wrappers:
`abort(400, ...)`, `get_or_404` / paginate's 404, flask-httpauth's 401, and
apiflask's 422 validation failure. -/
inductive ApiError where
  | badRequest (message : String)
  | notFound
  | unauthorized
  | validationFailed
deriving DecidableEq

/-- One patient attribute dict: the 26 non-key attributes shared by the
`EventModel` columns, the `EventInSchema` / `EventOutSchema` fields and the
`sample_patients` dicts of `src/app.py`. Values are kept in their Python
surface (string) form, as in the `sample_patients` literals. -/
structure PatientDict where
  fname : String
  lname : String
  identity : String
  cellnum : String
  email : String
  gender : String
  homeaddress : String
  painscale : String
  painnature : String
  immediate : String
  trauma : String
  surgeries : String
  fever : String
  weightchange : String
  breathing : String
  coughing : String
  descough : String
  chestpain : String
  nausea : String
  vomiting : String
  diarrhea : String
  urinationissues : String
  changesvision : String
  skinabnormalities : String
  functionalhistory : String
  allergies : String
deriving DecidableEq

/-- A persisted row of the PATIENTS table (`class EventModel(db.Model)` in
`src/app.py`, the spec's Record): the storage-assigned integer primary key
`eid` plus the attribute dict. -/
structure EventModel where
  eid : Nat
  fields : PatientDict
deriving DecidableEq

/-- The state owned by the storage collaborator: whether the PATIENTS table
exists, its rows in storage-defined order, and the identity counter from which
the next `eid` primary key is assigned. -/
structure DBState where
  tableExists : Bool
  rows : List EventModel
  nextEid : Nat
deriving DecidableEq

/-- First entry of `sample_patients` in `src/app.py`. -/
def patrickDict : PatientDict :=
  { fname := "Patrick"
    lname := "Dlamini"
    identity := "0105232541085"
    cellnum := "0609805147"
    email := "johndoe@gmail.com"
    gender := "Male"
    homeaddress := "90 pain rd, durban"
    painscale := "9"
    painnature := "Pain in the abdomen"
    immediate := "true"
    trauma := "none"
    surgeries := "none"
    fever := "false"
    weightchange := "false"
    breathing := "false"
    coughing := "false"
    descough := "none"
    chestpain := "false"
    nausea := "false"
    vomiting := "false"
    diarrhea := "false"
    urinationissues := "false"
    changesvision := "false"
    skinabnormalities := "false"
    functionalhistory := "smoker,drugs"
    allergies := "penicilin" }

/-- Second entry of `sample_patients` in `src/app.py`. -/
def patienceDict : PatientDict :=
  { fname := "Patience"
    lname := "Dlamini"
    identity := "0105237771085"
    cellnum := "0506587417"
    email := "janedoe@gmail.com"
    gender := "Female"
    homeaddress := "10 injury rd, durban"
    painscale := "2"
    painnature := "Cough"
    immediate := "false"
    trauma := "none"
    surgeries := "none"
    fever := "false"
    weightchange := "false"
    breathing := "false"
    coughing := "false"
    descough := "none"
    chestpain := "false"
    nausea := "false"
    vomiting := "false"
    diarrhea := "false"
    urinationissues := "false"
    changesvision := "false"
    skinabnormalities := "false"
    functionalhistory := "smoker"
    allergies := "penicilin" }

/-- `sample_patients`: the fixed list of records inserted after table
recreation (`src/app.py` lines 96-158). -/
def sample_patients : List PatientDict := [patrickDict, patienceDict]

/-- Python `str(value)` applied to the result of `os.getenv`: the string itself
when the variable is set, the four-character string `"None"` when `os.getenv`
returns Python `None`. -/
def pyStrOfEnv : Option String → String
  | some s => s
  | none => "None"

/-- The token table of `src/app.py` lines 31-34:
`API_TOKEN="\x7b\x7b'\x7b0\x7d':'appuser'\x7d\x7d".format(os.getenv('API_TOKEN'))`
followed by `tokens=ast.literal_eval(API_TOKEN)`.  For an environment value
that is a plain token (no quote or brace characters) the `format` call
interpolates `str(value)` and `literal_eval` yields the single-entry dict
mapping that string to the fixed username `"appuser"`; modelled as a
single-entry association list. -/
def tokens (envApiToken : Option String) : List (String × String) :=
  [(pyStrOfEnv envApiToken, "appuser")]

/-- `verify_token` (`src/app.py` lines 264-269): dict membership test followed
by dict lookup, `None` (here `none`) when the presented token is not a key. -/
def verify_token (tokenTable : List (String × String)) (token : String) : Option String :=
  tokenTable.lookup token

/-- Modelled from the collaborating framework (flask-httpauth / apiflask
`auth_required`, applied to every protected route of `src/app.py`): a missing
token, or one the `verify_token` callback rejects, terminates the request with
401 Unauthorized before the view function runs, leaving storage untouched;
otherwise the view function runs. -/
def auth_required {α : Type} (tokenTable : List (String × String)) (token : Option String)
    (handler : DBState → DBState × Except ApiError α) (st : DBState) :
    DBState × Except ApiError α :=
  match token with
  | none => (st, Except.error ApiError.unauthorized)
  | some t =>
    match verify_token tokenTable t with
    | some _ => handler st
    | none => (st, Except.error ApiError.unauthorized)

/-- Inbound validation of `EventInSchema` (`src/app.py` lines 226-252).  All 26
fields are `required=True` (presence is structural in `PatientDict`); the only
value constraints are `validate=Length(13)` on `identity` and
`validate=Length(10)` on `cellnum`.  marshmallow's validator signature is
`Length(min=None, max=None, *, equal=None)`, so a single positional argument
sets the MINIMUM length only: the checks are lower bounds. -/
def EventInSchema_validate (p : PatientDict) : Bool :=
  (13 ≤ p.identity.length) && (10 ≤ p.cellnum.length)

/-- Loading the pagination query parameters through `EventQuerySchema`
(`src/app.py` lines 255-257): `page = Integer(load_default=1)` (no validator)
and `per_page = Integer(load_default=20, validate=Range(max=30))`.
marshmallow's `Range(max=30)` rejects values above 30 and imposes no lower
bound.  `none` models a 422 validation failure. -/
def EventQuerySchema_load (page per_page : Option Int) : Option (Int × Int) :=
  let p := page.getD 1
  let pp := per_page.getD 20
  if pp ≤ 30 then some (p, pp) else none

/-- `get_event_eid` (`src/app.py` lines 272-279):
`EventModel.query.get_or_404(eid)` — the row whose primary key equals `eid`,
or a 404 NotFound abort when no row has that key. -/
def get_event_eid (st : DBState) (eid : Nat) : Except ApiError EventModel :=
  match st.rows.find? (fun r => r.eid == eid) with
  | some r => Except.ok r
  | none => Except.error ApiError.notFound

deriving instance DecidableEq for Except

/-- SQL LIKE pattern matching over character sequences, as evaluated by the
storage collaborator for `EventModel.fname.like(search)`:
`'%'` matches any (possibly empty) remaining sequence — i.e. the rest of the
pattern must match some suffix of the string — `'_'` matches any single
character, and every other pattern character matches itself. -/
def likeMatch : List Char → List Char → Bool
  | [], s => s.isEmpty
  | a :: ps, s =>
    if a = '%' then
      s.tails.any fun t => likeMatch ps t
    else
      match s with
      | [] => false
      | c :: cs => (a == '_' || a == c) && likeMatch ps cs

/-- The search pattern built by `get_event_name`:
`search="%\x7b\x7d%".format(fname)`, i.e. a `'%'` on each side of the input. -/
def likePat (v : String) : List Char :=
  '%' :: (v.data ++ ['%'])

/-- `get_event_name` (`src/app.py` lines 282-290):
`EventModel.query.filter(EventModel.fname.like(search)).first()` — the first
row (in storage-defined order) whose `fname` matches the LIKE pattern, or
Python `None` when no row matches. -/
def get_event_name (st : DBState) (fname : String) : Option EventModel :=
  st.rows.find? (fun r => likeMatch (likePat fname) r.fields.fname.data)

/-- Number of pages reported by Flask-SQLAlchemy's `Pagination.pages`:
0 when `per_page` is 0, otherwise the ceiling of `total / per_page`.
(`per_page` is non-negative whenever this is reached, see `paginate`.) -/
def pagesFor (total : Nat) (per_page : Int) : Nat :=
  if per_page.toNat = 0 then 0 else (total + per_page.toNat - 1) / per_page.toNat

/-- The pagination object produced by Flask-SQLAlchemy's `Query.paginate`. -/
structure Paging where
  items : List EventModel
  total : Nat
  page : Int
  per_page : Int
  pages : Nat
deriving DecidableEq

/-- Modelled from the collaborating framework (Flask-SQLAlchemy
`Query.paginate`, called with its default `error_out=True` in `get_events`):
aborts 404 when `page < 1`, when `per_page < 0`, or when the selected slice
`LIMIT per_page OFFSET (page-1)*per_page` is empty and `page` is not 1;
otherwise yields the slice together with the totals. -/
def paginate (st : DBState) (page per_page : Int) : Except ApiError Paging :=
  if page < 1 then Except.error ApiError.notFound
  else if per_page < 0 then Except.error ApiError.notFound
  else
    let items := (st.rows.drop ((page - 1).toNat * per_page.toNat)).take per_page.toNat
    if items.isEmpty && page != 1 then Except.error ApiError.notFound
    else Except.ok
      { items := items
        total := st.rows.length
        page := page
        per_page := per_page
        pages := pagesFor st.rows.length per_page }

/-- The pagination metadata object built by apiflask's `pagination_builder`
from the `Paging` object and serialized through `PaginationSchema`: totals plus
the has-next / has-previous information (`page < pages`, `page > 1`) that
drives the next/prev links. -/
structure PaginationMeta where
  total : Nat
  pages : Nat
  per_page : Int
  page : Int
  has_next : Bool
  has_prev : Bool
deriving DecidableEq

/-- apiflask `pagination_builder` applied to a Flask-SQLAlchemy pagination
object (used by `get_events`, `src/app.py` line 309). -/
def pagination_builder (p : Paging) : PaginationMeta :=
  { total := p.total
    pages := p.pages
    per_page := p.per_page
    page := p.page
    has_next := decide (p.page < (p.pages : Int))
    has_prev := decide (1 < p.page) }

/-- A JSON value appearing in the `get_events` response dict: either a list of
serialized rows or the pagination metadata object. -/
inductive JValue where
  | records (rs : List EventModel)
  | meta (m : PaginationMeta)
deriving DecidableEq

/-- The declared field names of `EventsOutSchema` (`src/app.py` lines 259-261):
`events = List(Nested(EventOutSchema))` and `pagination = Nested(PaginationSchema)`. -/
def eventsOutSchemaFields : List String := ["events", "pagination"]

/-- marshmallow serialization of a dict through a schema: each declared field
name is looked up in the dict; fields with no matching key are omitted from
the output, and dict keys matching no declared field are dropped. -/
def marshmallowDump (declaredFields : List String) (obj : List (String × JValue)) :
    List (String × JValue) :=
  declaredFields.filterMap fun f => (obj.lookup f).map fun v => (f, v)

/-- `get_events` (`src/app.py` lines 294-310) including its `@app.output`
serialization: paginates the table, then returns the dict
`\x7b'patients': pagination.items, 'pagination': pagination_builder(pagination)\x7d`
serialized through `EventsOutSchema`. -/
def get_events (st : DBState) (page per_page : Int) :
    Except ApiError (List (String × JValue)) :=
  (paginate st page per_page).map fun p =>
    marshmallowDump eventsOutSchemaFields
      [("patients", JValue.records p.items), ("pagination", JValue.meta (pagination_builder p))]

/-- Insertion of one new row: storage assigns the next identity value as the
primary key and appends the row (models `db.session.add` of a fresh
`EventModel(**data)` followed by commit). -/
def insertNew (st : DBState) (p : PatientDict) : DBState :=
  { tableExists := st.tableExists
    rows := st.rows ++ [{ eid := st.nextEid, fields := p }]
    nextEid := st.nextEid + 1 }

/-- `create_event` (`src/app.py` lines 313-324) including its `@app.input`
validation gate: a payload failing `EventInSchema` validation is rejected with
a 422 before any storage access; otherwise the row is persisted and returned
with its storage-assigned `eid`. -/
def create_event (st : DBState) (payload : PatientDict) :
    DBState × Except ApiError EventModel :=
  if EventInSchema_validate payload then
    let r : EventModel := { eid := st.nextEid, fields := payload }
    ({ tableExists := st.tableExists, rows := st.rows ++ [r], nextEid := st.nextEid + 1 },
      Except.ok r)
  else
    (st, Except.error ApiError.validationFailed)

/-- `create_database` (`src/app.py` lines 328-348).  The `confirmation` query
parameter is loaded by `Boolean(load_default=False)`.  If it is `True`:
`db.drop_all()`, `db.create_all()` (table recreated empty, identity counter
reset to its initial value 1), then each `sample_patients` entry is inserted
and committed.  Otherwise: `abort(400, message='confirmation is missing')`
with no storage access. -/
def create_database (st : DBState) (confirmation : Bool) :
    DBState × Except ApiError String :=
  if confirmation then
    (sample_patients.foldl insertNew { tableExists := true, rows := [], nextEid := 1 },
      Except.ok "database recreated")
  else
    (st, Except.error (ApiError.badRequest "confirmation is missing"))

/-- An empty, freshly created PATIENTS table. -/
def emptyState : DBState := { tableExists := true, rows := [], nextEid := 1 }

/-- A table holding a single row. -/
def oneRowState : DBState :=
  { tableExists := true, rows := [{ eid := 1, fields := patrickDict }], nextEid := 2 }

/-- The table as left by a confirmed `create_database` call: exactly the two
sample rows with identifiers 1 and 2. -/
def seededState : DBState :=
  { tableExists := true
    rows := [{ eid := 1, fields := patrickDict }, { eid := 2, fields := patienceDict }]
    nextEid := 3 }

/-- C1: a call to `create_database` whose confirmation parameter is not
literally true fails with BadRequest "confirmation is missing" and leaves the
stored table, its rows and the identity counter completely unchanged — no
drop, create or insert is performed. -/
theorem create_database_unconfirmed_noop (st : DBState) (confirmation : Bool)
    (h : confirmation ≠ true) :
    create_database st confirmation =
      (st, Except.error (ApiError.badRequest "confirmation is missing")) := by
  cases confirmation with
  | false => rfl
  | true => exact absurd rfl h

/-- Witness for `create_database_unconfirmed_noop` at a concrete populated
table and `confirmation = false`. -/
theorem create_database_unconfirmed_noop_check :
    create_database oneRowState false =
      (oneRowState, Except.error (ApiError.badRequest "confirmation is missing")) :=
  create_database_unconfirmed_noop oneRowState false (by decide)

/-- C6: a confirmed `create_database` call leaves the table holding exactly the
two built-in sample records — with fresh identifiers 1 and 2 and identity
counter reset — regardless of the rows that existed before the call. -/
theorem create_database_confirmed_seeds_samples (st : DBState) :
    (create_database st true).1.rows =
      [{ eid := 1, fields := patrickDict }, { eid := 2, fields := patienceDict }] ∧
    (create_database st true).1 = seededState ∧
    (create_database st true).2 = Except.ok "database recreated" :=
  ⟨rfl, rfl, rfl⟩

/-- C10: with the API_TOKEN environment variable unset, the constructed token
table maps the literal four-character string "None" to "appuser", so the
authenticator accepts a request presenting the token "None". -/
theorem tokens_unset_env_accepts_none_string :
    tokens none = [("None", "appuser")] ∧
    verify_token (tokens none) "None" = some "appuser" :=
  ⟨rfl, rfl⟩

/-- C5 counterexample: the query validator accepts page size 0, which lies
outside the range 1..30, so the claim that sizes outside 1..30 are rejected is
false at this input. -/
theorem eventQuerySchema_accepts_out_of_range_size :
    EventQuerySchema_load none (some 0) = some (1, 0) ∧
    ¬((1 : Int) ≤ 0 ∧ (0 : Int) ≤ 30) := by decide

/-- C5 amended: the query validator supplies defaults page = 1 and page size
= 20 when the parameters are absent, and accepts a page size exactly when it
is at most 30 — only the upper bound is enforced; no lower bound is applied to
the size (and no bound at all to the page number). -/
theorem eventQuerySchema_load_spec (page per_page : Option Int) :
    EventQuerySchema_load none none = some (1, 20) ∧
    ((EventQuerySchema_load page per_page).isSome ↔ per_page.getD 20 ≤ 30) ∧
    (∀ pr, EventQuerySchema_load page per_page = some pr →
      pr = (page.getD 1, per_page.getD 20)) := by
  refine ⟨rfl, ?_⟩
  by_cases h : per_page.getD 20 ≤ 30
  · simp only [EventQuerySchema_load, if_pos h]
    exact ⟨by simp [h], fun pr hpr => ((Option.some_inj).mp hpr).symm⟩
  · simp [EventQuerySchema_load, h]

/-- Witness for `eventQuerySchema_load_spec` at concrete query parameters. -/
theorem eventQuerySchema_load_spec_check :
    EventQuerySchema_load none none = some (1, 20) ∧
    ((EventQuerySchema_load (some 2) (some 25)).isSome ↔ (25 : Int) ≤ 30) ∧
    (∀ pr, EventQuerySchema_load (some 2) (some 25) = some pr → pr = (2, 25)) :=
  eventQuerySchema_load_spec (some 2) (some 25)

/-- C4: the inbound validator accepts an identity of 14 characters and a
cellnum of 11 characters (marshmallow `Length(13)` / `Length(10)` set only a
minimum), and the 14-character identity payload is then persisted — the
claimed exactly-13 / exactly-10 rejection does not happen. -/
theorem eventInSchema_accepts_overlong_fields :
    EventInSchema_validate { patrickDict with identity := "01052325410855" } = true ∧
    ("01052325410855" : String).length = 14 ∧
    EventInSchema_validate { patrickDict with cellnum := "06098051471" } = true ∧
    ("06098051471" : String).length = 11 ∧
    (create_event emptyState { patrickDict with identity := "01052325410855" }).1.rows =
      [{ eid := 1, fields := { patrickDict with identity := "01052325410855" } }] := by
  decide

/-- C3: on the seeded two-record table with page 1 and size 20, pagination
produces the full two-record slice, but the serialized `get_events` response
contains only the pagination metadata: the handler returns the slice under the
dict key "patients" while `EventsOutSchema` declares the field "events", so
serialization drops the records. -/
theorem get_events_serialized_response_drops_records :
    paginate seededState 1 20 =
      Except.ok { items := seededState.rows, total := 2, page := 1,
                  per_page := 20, pages := 1 } ∧
    get_events seededState 1 20 =
      Except.ok [("pagination", JValue.meta
        { total := 2, pages := 1, per_page := 20, page := 1,
          has_next := false, has_prev := false })] := by
  decide

/-- C9: with a configured secret, `verify_token` returns the fixed identity
"appuser" exactly when the presented credential equals the secret and rejects
(returns none) every other string; a protected operation called with a
rejected or missing token terminates with 401 Unauthorized — the handler never
runs and the stored state is unchanged. -/
theorem verify_token_accepts_only_secret {α : Type} (secret t : String) (st : DBState)
    (handler : DBState → DBState × Except ApiError α) :
    (verify_token (tokens (some secret)) t = some "appuser" ↔ t = secret) ∧
    (t ≠ secret → verify_token (tokens (some secret)) t = none) ∧
    (t ≠ secret →
      auth_required (tokens (some secret)) (some t) handler st =
        (st, Except.error ApiError.unauthorized)) ∧
    auth_required (tokens (some secret)) none handler st =
      (st, Except.error ApiError.unauthorized) := by
  have hv : ∀ u : String, verify_token (tokens (some secret)) u =
      if u = secret then some "appuser" else none := by
    intro u
    by_cases h : u = secret
    · simp [verify_token, tokens, pyStrOfEnv, List.lookup, h]
    · have hbeq : (u == secret) = false := beq_eq_false_iff_ne.mpr h
      simp [verify_token, tokens, pyStrOfEnv, List.lookup, hbeq, h]
  by_cases h : t = secret
  · subst h
    refine ⟨?_, fun hne => absurd rfl hne, fun hne => absurd rfl hne, rfl⟩
    rw [hv t, if_pos rfl]
    simp
  · have hvn : verify_token (tokens (some secret)) t = none := by rw [hv t, if_neg h]
    refine ⟨?_, fun _ => hvn, fun _ => ?_, rfl⟩
    · rw [hvn]
      simp [h]
    · simp [auth_required, hvn]

/-- Witness for `verify_token_accepts_only_secret` at a concrete secret, a
concrete wrong credential and a concrete destructive handler. -/
theorem verify_token_accepts_only_secret_check :
    verify_token (tokens (some "s3cr3t")) "wrong" = none ∧
    auth_required (tokens (some "s3cr3t")) (some "wrong")
        (fun s => create_database s true) emptyState =
      (emptyState, Except.error ApiError.unauthorized) := by
  have h := verify_token_accepts_only_secret (α := String) "s3cr3t" "wrong" emptyState
    (fun s => create_database s true)
  exact ⟨h.2.1 (by decide), h.2.2.1 (by decide)⟩

/-- On rows with pairwise-distinct primary keys, the row `find?` locates for a
given key is exactly the member carrying that key. -/
theorem find_eid_eq_some_iff (l : List EventModel) (eid : Nat)
    (huniq : l.Pairwise (fun a b => a.eid ≠ b.eid)) (r : EventModel) :
    l.find? (fun x => x.eid == eid) = some r ↔ r ∈ l ∧ r.eid = eid := by
  induction l with
  | nil => simp
  | cons a tl ih =>
    have ha := (List.pairwise_cons.mp huniq).1
    have htl := (List.pairwise_cons.mp huniq).2
    by_cases hae : a.eid = eid
    · rw [List.find?_cons_of_pos _ (by simp [hae])]
      constructor
      · intro h
        have hr : a = r := Option.some_inj.mp h
        subst hr
        exact ⟨List.mem_cons_self a tl, hae⟩
      · rintro ⟨hmem, hre⟩
        rcases List.mem_cons.mp hmem with hr | hmemtl
        · rw [hr]
        · exact absurd (hae.trans hre.symm) (ha r hmemtl)
    · rw [List.find?_cons_of_neg _ (by simp [hae])]
      rw [ih htl]
      constructor
      · rintro ⟨hmem, hre⟩
        exact ⟨List.mem_cons_of_mem a hmem, hre⟩
      · rintro ⟨hmem, hre⟩
        rcases List.mem_cons.mp hmem with hr | hmemtl
        · exact absurd (hr ▸ hre) hae
        · exact ⟨hmemtl, hre⟩

/-- C7: under the primary-key invariant (pairwise-distinct identifiers), the
get-by-identifier operation succeeds with exactly the stored row carrying the
requested identifier, and fails with NotFound exactly when no stored row
carries it. -/
theorem get_event_eid_found_iff (st : DBState) (eid : Nat) (_hpos : 0 < eid)
    (huniq : st.rows.Pairwise (fun a b => a.eid ≠ b.eid)) :
    (∀ r, get_event_eid st eid = Except.ok r ↔ (r ∈ st.rows ∧ r.eid = eid)) ∧
    (get_event_eid st eid = Except.error ApiError.notFound ↔
      ∀ r ∈ st.rows, r.eid ≠ eid) := by
  have hok : ∀ r, get_event_eid st eid = Except.ok r ↔
      st.rows.find? (fun x => x.eid == eid) = some r := by
    intro r
    unfold get_event_eid
    cases hfind : st.rows.find? (fun x => x.eid == eid) <;> simp
  have herr : get_event_eid st eid = Except.error ApiError.notFound ↔
      st.rows.find? (fun x => x.eid == eid) = none := by
    unfold get_event_eid
    cases hfind : st.rows.find? (fun x => x.eid == eid) <;> simp
  refine ⟨fun r => (hok r).trans (find_eid_eq_some_iff st.rows eid huniq r), ?_⟩
  rw [herr, List.find?_eq_none]
  simp

/-- Witness for `get_event_eid_found_iff` on the seeded table: identifier 1 is
found, identifier 9999 yields NotFound. -/
theorem get_event_eid_found_iff_check :
    get_event_eid seededState 1 = Except.ok { eid := 1, fields := patrickDict } ∧
    get_event_eid seededState 9999 = Except.error ApiError.notFound := by
  have h1 := get_event_eid_found_iff seededState 1 (by decide) (by decide)
  have h2 := get_event_eid_found_iff seededState 9999 (by decide) (by decide)
  exact ⟨(h1.1 _).mpr ⟨by decide, rfl⟩, h2.2.mpr (by decide)⟩

/-- A LIKE pattern consisting of a single `'%'` matches every string. -/
theorem likeMatch_percent_only (s : List Char) : likeMatch ['%'] s = true := by
  have h : likeMatch ['%'] s = s.tails.any fun t => likeMatch [] t := rfl
  rw [h, List.any_eq_true]
  exact ⟨ [], (List.mem_tails [] s).mpr List.nil_suffix, rfl⟩

/-- A wildcard-free pattern followed by a trailing `'%'` LIKE-matches a string
exactly when the wildcard-free part is a prefix of it. -/
theorem likeMatch_append_percent (v : List Char) (hp : '%' ∉ v) (hu : '_' ∉ v) :
    ∀ s : List Char, likeMatch (v ++ ['%']) s = true ↔ v <+: s := by
  induction v with
  | nil =>
    intro s
    simp [likeMatch_percent_only s]
  | cons a v ih =>
    have hp' : '%' ∉ v := fun h => hp (List.mem_cons_of_mem a h)
    have hu' : '_' ∉ v := fun h => hu (List.mem_cons_of_mem a h)
    have ha : a ≠ '%' := fun h => hp (h ▸ List.mem_cons_self a v)
    have hau : (a == '_') = false :=
      beq_eq_false_iff_ne.mpr fun h => hu (h ▸ List.mem_cons_self a v)
    intro s
    cases s with
    | nil =>
      rw [List.cons_append]
      simp only [likeMatch, if_neg ha]
      simp
    | cons c cs =>
      rw [List.cons_append]
      simp only [likeMatch, if_neg ha, hau, Bool.false_or, Bool.and_eq_true, beq_iff_eq]
      rw [ih hp' hu' cs]
      exact (List.cons_prefix_cons).symm

/-- A pattern with a leading `'%'` LIKE-matches a string exactly when the rest
of the pattern LIKE-matches some suffix of it. -/
theorem likeMatch_percent_cons (p s : List Char) :
    likeMatch ('%' :: p) s = true ↔ ∃ t, t <:+ s ∧ likeMatch p t = true := by
  have h : likeMatch ('%' :: p) s = s.tails.any fun t => likeMatch p t := rfl
  rw [h, List.any_eq_true]
  constructor
  · rintro ⟨t, htmem, ht⟩
    exact ⟨t, (List.mem_tails t s).mp htmem, ht⟩
  · rintro ⟨t, hts, ht⟩
    exact ⟨t, (List.mem_tails t s).mpr hts, ht⟩

/-- For a wildcard-free input `v`, the `get_event_name` search pattern `%v%`
LIKE-matches a string exactly when `v` occurs in it as a substring. -/
theorem likeMatch_likePat_iff (v : String) (hp : '%' ∉ v.data) (hu : '_' ∉ v.data)
    (s : List Char) :
    likeMatch (likePat v) s = true ↔ v.data <:+: s := by
  rw [likePat, likeMatch_percent_cons]
  constructor
  · rintro ⟨t, hts, ht⟩
    exact List.infix_iff_prefix_suffix.mpr
      ⟨t, (likeMatch_append_percent v.data hp hu t).mp ht, hts⟩
  · intro hinf
    rcases List.infix_iff_prefix_suffix.mp hinf with ⟨t, hpre, hsuf⟩
    exact ⟨t, hsuf, (likeMatch_append_percent v.data hp hu t).mpr hpre⟩

/-- `find?` only depends on the pointwise behaviour of its predicate. -/
theorem find?_congr_pred {α : Type} (p q : α → Bool) (l : List α)
    (h : ∀ a, p a = q a) : l.find? p = l.find? q := by
  induction l with
  | nil => rfl
  | cons a tl ih => rw [List.find?_cons, List.find?_cons, h a, ih]

/-- C8: for a wildcard-free input string — on which the LIKE pattern %value%
is exactly substring containment, as the spec's gloss says — `get_event_name`
returns the first stored row in storage-defined order whose first-name field
contains the input as a substring (hence at most one row even when several
match), and returns nothing exactly when no stored row matches. -/
theorem get_event_name_substring_first (st : DBState) (v : String)
    (hp : '%' ∉ v.data) (hu : '_' ∉ v.data) :
    get_event_name st v =
      st.rows.find? (fun r => decide (v.data <:+: r.fields.fname.data)) ∧
    (get_event_name st v = none ↔
      ∀ r ∈ st.rows, ¬ v.data <:+: r.fields.fname.data) := by
  have heq : get_event_name st v =
      st.rows.find? (fun r => decide (v.data <:+: r.fields.fname.data)) := by
    unfold get_event_name
    apply find?_congr_pred
    intro r
    have h := likeMatch_likePat_iff v hp hu r.fields.fname.data
    by_cases hin : v.data <:+: r.fields.fname.data
    · simp [h.mpr hin, hin]
    · cases hlm : likeMatch (likePat v) r.fields.fname.data
      · simp [hin]
      · exact absurd (h.mp hlm) hin
  refine ⟨heq, ?_⟩
  rw [heq, List.find?_eq_none]
  simp

/-- Witness for `get_event_name_substring_first` on the seeded table: the
input "Pat" occurs in both stored first names and only the first row is
returned; the input "zzz" occurs in none and nothing is returned. -/
theorem get_event_name_substring_first_check :
    get_event_name seededState "Pat" = some { eid := 1, fields := patrickDict } ∧
    get_event_name seededState "zzz" = none := by
  have h1 := get_event_name_substring_first seededState "Pat" (by decide) (by decide)
  have h2 := get_event_name_substring_first seededState "zzz" (by decide) (by decide)
  refine ⟨?_, h2.2.mpr (by decide)⟩
  rw [h1.1]
  decide

/-- C2 counterexample: on a one-row table the request page = 2, size = 20 is
within the validated bounds and beyond the last page (total pages = 1), yet
`get_events` fails with NotFound instead of returning an empty slice. -/
theorem get_events_beyond_last_errors_example :
    pagesFor oneRowState.rows.length 20 = 1 ∧
    get_events oneRowState 2 20 = Except.error ApiError.notFound := by decide

/-- The page count of an empty table is zero. -/
theorem pagesFor_zero (pp : Int) : pagesFor 0 pp = 0 := by
  rw [pagesFor]
  by_cases h : pp.toNat = 0
  · rw [if_pos h]
  · rw [if_neg h]
    exact Nat.div_eq_of_lt (by omega)

/-- C2 amended: for every in-bounds page/size request whose page lies beyond
the last page, the list operation `get_events` fails with a NotFound (404)
signal — paginate is called with its default error_out behaviour — whenever
the requested page is not 1; the only beyond-last in-bounds request with
page = 1 forces an empty table, on which `get_events` succeeds, the selected
slice being empty. -/
theorem get_events_beyond_last_not_found (st : DBState) (page pp : Int)
    (hpage : 1 ≤ page) (hpp : 1 ≤ pp) (hmax : pp ≤ 30)
    (hbeyond : (pagesFor st.rows.length pp : Int) < page) :
    (page ≠ 1 → get_events st page pp = Except.error ApiError.notFound) ∧
    (page = 1 → st.rows = [] ∧
      paginate st page pp = Except.ok
        { items := [], total := 0, page := 1, per_page := pp, pages := 0 } ∧
      get_events st page pp = Except.ok [("pagination", JValue.meta
        { total := 0, pages := 0, per_page := pp, page := 1,
          has_next := false, has_prev := false })]) := by
  have hB : 0 < pp.toNat := by omega
  have hpages : pagesFor st.rows.length pp =
      (st.rows.length + pp.toNat - 1) / pp.toNat := by
    rw [pagesFor, if_neg (by omega)]
  constructor
  · intro hne
    have hpage2 : 2 ≤ page := by omega
    have hlt : st.rows.length + pp.toNat - 1 < page.toNat * pp.toNat := by
      rw [hpages] at hbeyond
      have h1 : (st.rows.length + pp.toNat - 1) / pp.toNat < page.toNat := by
        generalize hD : (st.rows.length + pp.toNat - 1) / pp.toNat = D at hbeyond
        omega
      exact (Nat.div_lt_iff_lt_mul hB).mp h1
    have hoff : st.rows.length ≤ (page - 1).toNat * pp.toNat := by
      have hPQ : page.toNat = (page - 1).toNat + 1 := by omega
      rw [hPQ, Nat.succ_mul] at hlt
      generalize hY : (page - 1).toNat * pp.toNat = Y at hlt ⊢
      omega
    have hitems : (st.rows.drop ((page - 1).toNat * pp.toNat)).take pp.toNat = [] := by
      rw [List.drop_eq_nil_of_le hoff, List.take_nil]
    have hne1 : (page != 1) = true := by
      simp only [bne_iff_ne, ne_eq]
      omega
    have hpag : paginate st page pp = Except.error ApiError.notFound := by
      unfold paginate
      rw [if_neg (show ¬ page < 1 by omega), if_neg (show ¬ pp < 0 by omega)]
      simp only [hitems, List.isEmpty_nil, hne1, Bool.true_and, if_true]
    unfold get_events
    rw [hpag]
    rfl
  · intro h1
    subst h1
    have hnil : st.rows = [] := by
      have h0 : pagesFor st.rows.length pp = 0 := by omega
      rw [hpages] at h0
      have hN0 : st.rows.length = 0 := by
        by_contra hN
        have hge1 : 1 ≤ (st.rows.length + pp.toNat - 1) / pp.toNat := by
          rw [Nat.le_div_iff_mul_le hB]
          omega
        omega
      exact List.length_eq_zero.mp hN0
    have hpag : paginate st 1 pp = Except.ok
        { items := [], total := 0, page := 1, per_page := pp, pages := 0 } := by
      have hitems : (st.rows.drop (((1:Int) - 1).toNat * pp.toNat)).take pp.toNat = [] := by
        rw [hnil]
        simp
      unfold paginate
      rw [if_neg (show ¬ (1:Int) < 1 by omega), if_neg (show ¬ pp < 0 by omega)]
      simp [hitems, hnil, pagesFor_zero]
    refine ⟨hnil, hpag, ?_⟩
    unfold get_events
    rw [hpag]
    rfl

/-- Witness for `get_events_beyond_last_not_found`: beyond-last requests on a
nonempty one-row table (page 3, size 25) and on an empty table (page 5, size
20) both yield NotFound; page 1 of size 25 on an empty table succeeds with the
empty slice. -/
theorem get_events_beyond_last_not_found_check :
    get_events oneRowState 3 25 = Except.error ApiError.notFound ∧
    get_events emptyState 5 20 = Except.error ApiError.notFound ∧
    get_events emptyState 1 25 = Except.ok [("pagination", JValue.meta
      { total := 0, pages := 0, per_page := 25, page := 1,
        has_next := false, has_prev := false })] := by
  have h1 := get_events_beyond_last_not_found oneRowState 3 25 (by decide) (by decide)
    (by decide) (by decide)
  have h2 := get_events_beyond_last_not_found emptyState 5 20 (by decide) (by decide)
    (by decide) (by decide)
  have h3 := get_events_beyond_last_not_found emptyState 1 25 (by decide) (by decide)
    (by decide) (by decide)
  exact ⟨h1.1 (by decide), h2.1 (by decide), (h3.2 rfl).2.2⟩
